import Mathlib

/-!
Verification of the FurinaOCR scan-orchestration core.

Shallow embedding of the Rust sources:
* `src/genshin/src/scanner_controller/repository_layout/controller.rs` (ScanState)
* `src/genshin/src/scanner/artifact_scanner/scan_result.rs` (scan results)
* `src/genshin/src/scanner/artifact_scanner/error.rs` (error taxonomy, statistics)
* `src/genshin/src/scanner/artifact_scanner/artifact_scanner_worker.rs` (worker loop)
* `src/genshin/src/scanner/artifact_scanner/artifact_scanner.rs` (get_start_row)
* `src/furina_core/src/error_recovery/mod.rs` (recovery engine)

Conventions: Rust `usize`/`u64` become `Nat` (Rust arithmetic here never
underflows in the regimes considered, and `usize` subtraction in the source
only occurs where the operands are ordered); `i32` becomes `Int` with explicit
range checks where the source checks them; `f64` becomes `ℚ` (the floating
point values manipulated here are small products of decimal constants, and the
properties at stake are order properties preserved by exact arithmetic);
`Duration` becomes a `Nat` of milliseconds.
-/

namespace FurinaOCR

/-! ## ScanState (controller.rs) -/

/-- `ScanState` from `controller.rs`: tracking structure for one scan run. -/
structure ScanState where
  scanned_row : Nat
  scanned_count : Nat
  start_row : Nat
  item_count : Nat
  total_row : Nat
  last_row_col : Nat
deriving Repr, DecidableEq

/-- `ScanState::new` from `controller.rs`:
`total_row = (item_count + col - 1) / col`;
`last_row_col = if item_count % col == 0 { col } else { item_count % col }`. -/
def ScanState.new (item_count col : Nat) : ScanState :=
  let total_row := (item_count + col - 1) / col
  let last_row_col := if item_count % col = 0 then col else item_count % col
  ⟨0, 0, 0, item_count, total_row, last_row_col⟩

/-- `ScanState::is_scan_complete` from `controller.rs`. -/
def ScanState.is_scan_complete (s : ScanState) : Bool :=
  s.item_count ≤ s.scanned_count

/-- `ScanState::calculate_remaining_scan_params` from `controller.rs`.
Note that the divisor of `remain_row` is the `controller_row` argument,
which `handle_page_scroll` instantiates with the controller row count. -/
def ScanState.calculate_remaining_scan_params (s : ScanState)
    (controller_row : Nat) : Nat × Nat :=
  let remain := s.item_count - s.scanned_count
  let remain_row := (remain + controller_row - 1) / controller_row
  let scroll_row := min remain_row controller_row
  let start_row := controller_row - scroll_row
  (scroll_row, start_row)

/-- The paging formulas exactly as the spec states them:
`remain = item_count - scanned_count`, `remain_row = ceil(remain / col)`,
`scroll_row = min(remain_row, row)`, `start_row = row - scroll_row`. -/
def specRemainingScanParams (item_count scanned_count col row : Nat) : Nat × Nat :=
  let remain := item_count - scanned_count
  let remain_row := remain ⌈/⌉ col
  let scroll_row := min remain_row row
  (scroll_row, row - scroll_row)

/-- `GenshinArtifactScanner::get_start_row` from `artifact_scanner.rs`: the
sibling computation of the page start row on the worker side, which divides
the remaining item count by `col`. -/
def get_start_row (col row max_count cur_index : Nat) : Nat :=
  let page_size := col * row
  if page_size ≤ max_count - cur_index then 0
  else
    let remain := max_count - cur_index
    let remain_row := (remain + col - 1) / col
    let scroll_row := min remain_row row
    row - scroll_row

/-! ## ArtifactScanError (error.rs) -/

/-- `ArtifactScanError` from `error.rs`: the closed taxonomy of scan
failures. `f64` payloads become `ℚ`, `usize` payloads become `Nat`. -/
inductive ArtifactScanError where
  | OcrRecognitionFailed (field raw_text error_msg : String)
  | ImageCaptureFailed (region error_msg : String)
  | ArtifactParsingFailed (field value expected_format : String)
  | ConsecutiveDuplicateItems (count threshold : Nat)
  | StarRecognitionFailed (detected_color : String) (confidence : ℚ)
  | LevelParsingFailed (raw_text error_msg : String)
  | ModelLoadFailed (model_path error_msg : String)
  | WindowInfoFailed (error_msg : String)
  | ScanInterrupted (reason : String) (scanned_count : Nat)
  | Unknown (error_msg : String)
deriving Repr, DecidableEq

/-- The `Display` implementation for `ArtifactScanError` from `error.rs`
(quoting punctuation around interpolated values elided; numeric payloads
rendered with `toString`). -/
def ArtifactScanError.toStringModel : ArtifactScanError → String
  | .OcrRecognitionFailed field raw_text error_msg =>
      "OCR识别失败 - 字段: " ++ field ++ ", 原始文本: " ++ raw_text
        ++ ", 错误: " ++ error_msg
  | .ImageCaptureFailed region error_msg =>
      "图像捕获失败 - 区域: " ++ region ++ ", 错误: " ++ error_msg
  | .ArtifactParsingFailed field value expected_format =>
      "圣遗物数据解析失败 - 字段: " ++ field ++ ", 值: " ++ value
        ++ ", 期望格式: " ++ expected_format
  | .ConsecutiveDuplicateItems count threshold =>
      "检测到连续重复物品 - 数量: " ++ toString count ++ ", 阈值: "
        ++ toString threshold ++ " (可能为翻页错误或非背包顶部开始扫描)"
  | .StarRecognitionFailed detected_color confidence =>
      "星级识别失败 - 检测到颜色: " ++ detected_color ++ ", 置信度: "
        ++ toString confidence
  | .LevelParsingFailed raw_text error_msg =>
      "等级解析失败 - 原始文本: " ++ raw_text ++ ", 错误: " ++ error_msg
  | .ModelLoadFailed model_path error_msg =>
      "模型加载失败 - 路径: " ++ model_path ++ ", 错误: " ++ error_msg
  | .WindowInfoFailed error_msg => "窗口信息获取失败 - 错误: " ++ error_msg
  | .ScanInterrupted reason scanned_count =>
      "扫描中断 - 原因: " ++ reason ++ ", 已扫描: " ++ toString scanned_count
        ++ " 个"
  | .Unknown error_msg => "未知错误: " ++ error_msg

/-! ## GenshinArtifactScanResult (scan_result.rs) -/

/-- `GenshinArtifactScanResult` from `scan_result.rs`. The Rust field
`sub_stat : [String; 4]` becomes a `List String` (always of length 4 in the
program); `confidence_score : f64` becomes `ℚ`. -/
structure GenshinArtifactScanResult where
  name : String
  main_stat_name : String
  main_stat_value : String
  sub_stat : List String
  equip : String
  level : Int
  star : Int
  lock : Bool
  scan_errors : List String
  confidence_score : ℚ
deriving Repr, DecidableEq

/-- The manual `PartialEq` implementation from `scan_result.rs`: it compares
only the eight content fields and ignores `scan_errors` and
`confidence_score`. -/
def GenshinArtifactScanResult.eqImpl (a b : GenshinArtifactScanResult) : Bool :=
  a.name == b.name
    && a.main_stat_name == b.main_stat_name
    && a.main_stat_value == b.main_stat_value
    && a.sub_stat == b.sub_stat
    && a.equip == b.equip
    && a.level == b.level
    && a.star == b.star
    && a.lock == b.lock

/-- One value written to a Rust `Hasher`. -/
inductive HashToken where
  | str (s : String)
  | int (v : Int)
  | bool (b : Bool)
deriving Repr, DecidableEq

/-- The manual `Hash` implementation from `scan_result.rs` as the stream of
values written to the hasher, in source order: the eight content fields and
nothing else (`scan_errors` and `confidence_score` are not hashed). Any
concrete hasher is a function of this stream, so equal streams give equal
hashes. -/
def GenshinArtifactScanResult.hashTokens (r : GenshinArtifactScanResult) :
    List HashToken :=
  [HashToken.str r.name, HashToken.str r.main_stat_name,
   HashToken.str r.main_stat_value]
    ++ r.sub_stat.map HashToken.str
    ++ [HashToken.str r.equip, HashToken.int r.level, HashToken.int r.star,
        HashToken.bool r.lock]

/-- `GenshinArtifactScanResult::new` from `scan_result.rs`: starts with an
empty error list and confidence 1.0. -/
def GenshinArtifactScanResult.new (name main_stat_name main_stat_value : String)
    (sub_stat : List String) (equip : String) (level star : Int)
    (lock : Bool) : GenshinArtifactScanResult :=
  { name := name, main_stat_name := main_stat_name,
    main_stat_value := main_stat_value, sub_stat := sub_stat, equip := equip,
    level := level, star := star, lock := lock, scan_errors := [],
    confidence_score := 1 }

/-- The multiplicative confidence penalty per error class: the `match` inside
`GenshinArtifactScanResult::add_error` in `scan_result.rs`. -/
def ArtifactScanError.penalty : ArtifactScanError → ℚ
  | .OcrRecognitionFailed .. => 8 / 10
  | .ArtifactParsingFailed .. => 7 / 10
  | .StarRecognitionFailed .. => 9 / 10
  | .LevelParsingFailed .. => 9 / 10
  | _ => 95 / 100

/-- `GenshinArtifactScanResult::add_error` from `scan_result.rs`: pushes the
rendered error, multiplies the confidence by the per-class penalty, then
clamps at 0 from below with `max`. -/
def GenshinArtifactScanResult.add_error (r : GenshinArtifactScanResult)
    (e : ArtifactScanError) : GenshinArtifactScanResult :=
  { r with scan_errors := r.scan_errors ++ [e.toStringModel],
           confidence_score := max (r.confidence_score * e.penalty) 0 }

/-- `GenshinArtifactScanResult::has_errors` from `scan_result.rs`. -/
def GenshinArtifactScanResult.has_errors (r : GenshinArtifactScanResult) : Bool :=
  !r.scan_errors.isEmpty

/-- `GenshinArtifactScanResult::error_count` from `scan_result.rs`. -/
def GenshinArtifactScanResult.error_count (r : GenshinArtifactScanResult) : Nat :=
  r.scan_errors.length

/-- `GenshinArtifactScanResult::is_reliable` from `scan_result.rs`. -/
def GenshinArtifactScanResult.is_reliable (r : GenshinArtifactScanResult)
    (threshold : ℚ) : Bool :=
  threshold ≤ r.confidence_score

/-- A `new` result followed by a sequence of `add_error` calls. -/
def GenshinArtifactScanResult.applyErrors (r : GenshinArtifactScanResult)
    (errs : List ArtifactScanError) : GenshinArtifactScanResult :=
  errs.foldl GenshinArtifactScanResult.add_error r

/-- A concrete scan result with clean recognition metadata. -/
def sampleResultA : GenshinArtifactScanResult :=
  { name := "冠之循环", main_stat_name := "暴击率", main_stat_value := "31.1%",
    sub_stat := ["攻击力+5.8%", "防御力+23", "元素充能效率+6.5%", "生命值+299"],
    equip := "芙宁娜", level := 20, star := 5, lock := true,
    scan_errors := [], confidence_score := 1 }

/-- The same item as `sampleResultA` but with recognition noise recorded:
one error message and a degraded confidence score. -/
def sampleResultB : GenshinArtifactScanResult :=
  { name := "冠之循环", main_stat_name := "暴击率", main_stat_value := "31.1%",
    sub_stat := ["攻击力+5.8%", "防御力+23", "元素充能效率+6.5%", "生命值+299"],
    equip := "芙宁娜", level := 20, star := 5, lock := true,
    scan_errors := ["未知错误: OCR"], confidence_score := 4 / 5 }

/-! ## ErrorStatistics (error.rs, genshin crate) -/

/-- `ErrorStatistics` from the artifact scanner's `error.rs`: per-kind error
counters plus the success count. -/
structure ErrorStatistics where
  successful_scans : Nat
  total_errors : Nat
  ocr_errors : Nat
  image_capture_errors : Nat
  parsing_errors : Nat
  star_recognition_errors : Nat
  level_parsing_errors : Nat
  duplicate_items : Nat
  model_load_errors : Nat
  window_info_errors : Nat
  interruption_errors : Nat
  unknown_errors : Nat
deriving Repr, DecidableEq

/-- `ErrorStatistics::new` (= `Default::default()`): all counters zero. -/
def ErrorStatistics.new : ErrorStatistics :=
  ⟨0, 0, 0, 0, 0, 0, 0, 0, 0, 0, 0, 0⟩

/-- `ErrorStatistics::add_error` from `error.rs`: bumps the total and the
counter of the matching error kind. -/
def ErrorStatistics.add_error (s : ErrorStatistics) (e : ArtifactScanError) :
    ErrorStatistics :=
  let s := { s with total_errors := s.total_errors + 1 }
  match e with
  | .OcrRecognitionFailed .. => { s with ocr_errors := s.ocr_errors + 1 }
  | .ImageCaptureFailed .. =>
      { s with image_capture_errors := s.image_capture_errors + 1 }
  | .ArtifactParsingFailed .. => { s with parsing_errors := s.parsing_errors + 1 }
  | .StarRecognitionFailed .. =>
      { s with star_recognition_errors := s.star_recognition_errors + 1 }
  | .LevelParsingFailed .. =>
      { s with level_parsing_errors := s.level_parsing_errors + 1 }
  | .ConsecutiveDuplicateItems .. =>
      { s with duplicate_items := s.duplicate_items + 1 }
  | .ModelLoadFailed .. => { s with model_load_errors := s.model_load_errors + 1 }
  | .WindowInfoFailed .. =>
      { s with window_info_errors := s.window_info_errors + 1 }
  | .ScanInterrupted .. =>
      { s with interruption_errors := s.interruption_errors + 1 }
  | .Unknown .. => { s with unknown_errors := s.unknown_errors + 1 }

/-- `ErrorStatistics::add_success` from `error.rs`. -/
def ErrorStatistics.add_success (s : ErrorStatistics) : ErrorStatistics :=
  { s with successful_scans := s.successful_scans + 1 }

/-- `ErrorStatistics::get_success_rate` from `error.rs`: returns `0.0` when
there were no attempts; otherwise `(successful_scans / total_attempts) * 100.0`. -/
def ErrorStatistics.get_success_rate (s : ErrorStatistics) : ℚ :=
  let total_attempts := s.successful_scans + s.total_errors
  if total_attempts = 0 then 0
  else ((s.successful_scans : ℚ) / (total_attempts : ℚ)) * 100

/-- A concrete statistics record: 3 successes, 1 parsing error. -/
def sampleStats : ErrorStatistics :=
  ⟨3, 1, 0, 0, 1, 0, 0, 0, 0, 0, 0, 0⟩

/-! ## parse_level (artifact_scanner_worker.rs) -/

/-- The numeric value of a string of decimal digits, accumulated most
significant digit first (as Rust's integer parsing does). -/
def digitsToNat (ds : List Char) : Nat :=
  ds.foldl (fun acc c => acc * 10 + (c.toNat - 48)) 0

/-- Rust's `str::parse::<i32>`: an optional single leading sign followed by
one or more ASCII digits, rejecting anything else and values outside the
`i32` range. -/
def parseI32 (s : List Char) : Option Int :=
  let signAndDigits : Int × List Char :=
    match s with
    | '+' :: rest => (1, rest)
    | '-' :: rest => (-1, rest)
    | _ => (1, s)
  let sign := signAndDigits.1
  let digits := signAndDigits.2
  if digits = [] then none
  else if digits.all Char.isDigit then
    let v : Int := sign * (digitsToNat digits : Int)
    if -(2 ^ 31) ≤ v ∧ v ≤ 2 ^ 31 - 1 then some v else none
  else none

/-- `parse_level` from `artifact_scanner_worker.rs`: if the string contains no
separator character it is parsed whole; otherwise the slice starting at the
first separator (sign included) is parsed. `s.find` followed by slicing
`&s[pos..]` is rendered as `dropWhile`: the suffix starting at the first
occurrence of the separator. -/
def parse_level (s : List Char) : Except String Int :=
  let suffix := s.dropWhile (fun c => c != '+')
  if suffix.isEmpty then
    match parseI32 s with
    | some level => Except.ok level
    | none => Except.error ("等级解析失败: 无法解析数字 " ++ String.mk s)
  else
    match parseI32 suffix with
    | some level => Except.ok level
    | none =>
        Except.error ("等级解析失败: 无法解析带+号的等级 " ++ String.mk suffix)

/-! ## The worker consume loop (artifact_scanner_worker.rs)

`ArtifactScannerWorker::run` receives `Option<SendItem>` messages. The image
processing inside `scan_item_image_optimized` and `get_page_locks_optimized`
is outside the embedding: an incoming message is modelled by the data the
loop branches on — the per-page lock vector computed from the optional list
image, and the scan outcome as a function of the lock flag the loop passes
in. The loop state carries exactly the mutable locals of `run`. -/

/-- The configuration values the loop reads: `config.min_level`,
`window_info.col`, `config.ignore_dup`. -/
structure WorkerEnv where
  min_level : Int
  col : Nat
  ignore_dup : Bool

/-- One received `SendItem`, reduced to what the loop inspects. -/
structure WEvent where
  listLocks : Option (List Bool)
  scan : Bool → Except String GenshinArtifactScanResult

/-- The mutable locals of `ArtifactScannerWorker::run`. -/
structure WState where
  results : List GenshinArtifactScanResult
  hashSet : List GenshinArtifactScanResult
  consecutive_dup_count : Nat
  locks : List Bool
  artifact_index : Nat
  error_stats : ErrorStatistics

/-- The locals at loop entry. -/
def initialWState : WState :=
  ⟨[], [], 0, [], 0, ErrorStatistics.new⟩

/-- `hash.contains(&result)`: membership under the manual `PartialEq`. -/
def hashContains (hs : List GenshinArtifactScanResult)
    (r : GenshinArtifactScanResult) : Bool :=
  hs.any (fun x => x.eqImpl r)

/-- `locks = [locks, self.get_page_locks_optimized(v)].concat()` when a list
image is present, otherwise unchanged. -/
def updatedLocks (s : WState) (ev : WEvent) : List Bool :=
  match ev.listLocks with
  | some v => s.locks ++ v
  | none => s.locks

/-- `locks.get(artifact_index as usize - 1).copied().unwrap_or(false)`: after
the increment the 0-based index is the pre-increment `artifact_index`. -/
def lockFlagUsed (s : WState) (ev : WEvent) : Bool :=
  ((updatedLocks s ev)[s.artifact_index]?).getD false

/-- Outcome of one iteration of the consume loop: proceed with the next
message, or leave the loop (`break`). -/
inductive StepRes where
  | cont (s : WState)
  | halt (s : WState)

/-- One iteration of the `ArtifactScannerWorker::run` loop body on a received
item, parameterized by the lock flag handed to `scan_item_image_optimized`:
scan, record success or a typed `Unknown` error, break below `min_level`,
count duplicates (recording a `ConsecutiveDuplicateItems` error) or insert
the new result, and break on a duplicate streak of `col` unless
`ignore_dup`. -/
def wstepFlag (env : WorkerEnv) (ev : WEvent) (s : WState) (lock : Bool) :
    StepRes :=
  let locks := updatedLocks s ev
  let idx := s.artifact_index + 1
  match ev.scan lock with
  | Except.error e =>
      StepRes.cont { s with
        locks := locks, artifact_index := idx,
        error_stats := s.error_stats.add_error (ArtifactScanError.Unknown e) }
  | Except.ok result =>
      let s1 : WState := { s with
        locks := locks, artifact_index := idx,
        error_stats := s.error_stats.add_success }
      if result.level < env.min_level then StepRes.halt s1
      else
        let s2 : WState :=
          if hashContains s1.hashSet result then
            { s1 with
              consecutive_dup_count := s1.consecutive_dup_count + 1,
              error_stats := s1.error_stats.add_error
                (ArtifactScanError.ConsecutiveDuplicateItems
                  (s1.consecutive_dup_count + 1) env.col) }
          else
            { s1 with
              consecutive_dup_count := 0,
              hashSet := result :: s1.hashSet,
              results := s1.results ++ [result] }
        if env.col ≤ s2.consecutive_dup_count ∧ env.ignore_dup = false then
          StepRes.halt s2
        else StepRes.cont s2

/-- One loop iteration with the lock flag the code actually computes. -/
def wstep (env : WorkerEnv) (ev : WEvent) (s : WState) : StepRes :=
  wstepFlag env ev s (lockFlagUsed s ev)

/-- The consume loop of `ArtifactScannerWorker::run`: `None` is the channel
sentinel, `break` leaves the remaining messages unconsumed. -/
def runLoop (env : WorkerEnv) : List (Option WEvent) → WState → WState
  | [], s => s
  | none :: _, s => s
  | some ev :: rest, s =>
      match wstep env ev s with
      | StepRes.halt s1 => s1
      | StepRes.cont s1 => runLoop env rest s1

/-- The state a duplicate iteration leaves behind: index advanced, success
then a `ConsecutiveDuplicateItems` error recorded, streak counter bumped,
results and hash set unchanged. -/
def dupStepState (env : WorkerEnv) (ev : WEvent) (s : WState) : WState :=
  { s with
    locks := updatedLocks s ev, artifact_index := s.artifact_index + 1,
    consecutive_dup_count := s.consecutive_dup_count + 1,
    error_stats := (s.error_stats.add_success).add_error
      (ArtifactScanError.ConsecutiveDuplicateItems
        (s.consecutive_dup_count + 1) env.col) }

/-- A concrete worker environment: one column, duplicate abort enabled. -/
def wenv : WorkerEnv :=
  { min_level := 0, col := 1, ignore_dup := false }

/-- The same environment with the duplicate abort suppressed. -/
def wenvIgnore : WorkerEnv :=
  { min_level := 0, col := 1, ignore_dup := true }

/-- A concrete received item that scans to `sampleResultA`. -/
def wev : WEvent :=
  { listLocks := none, scan := fun _ => Except.ok sampleResultA }

/-- A concrete loop state that has already seen `sampleResultA`. -/
def ws0 : WState :=
  { initialWState with hashSet := [sampleResultA] }

/-! ## Error recovery engine (furina_core/src/error_recovery/mod.rs)

Durations become milliseconds as `Nat`; the `f64` multiplier becomes `ℚ`,
with Rust's saturating `as u64` cast of a nonnegative product rendered as
`Int.toNat ∘ Int.floor`. The operation under retry is an oracle
`Nat → Except E T` giving the outcome of its (attempt+1)-th invocation; each
helper returns the number of invocations performed. `Instant` timestamps are
not representable, so `error_count_in_window` enters `should_attempt_recovery`
as the precomputed count parameter `windowCount`; the `unreachable!()` arm
reached only when `max_retries = 0` is the `none` result. -/

/-- `ErrorCategory` from `error_recovery/mod.rs`; the input/output variant
of the Rust enum is rendered `IOError` here. -/
inductive ErrorCategory where
  | Network
  | IOError
  | Parsing
  | OCR
  | ImageProcessing
  | ResourceExhaustion
  | Configuration
  | Temporary
  | Permanent
  | Unknown
deriving Repr, DecidableEq

/-- `RecoveryStrategy` from `error_recovery/mod.rs`. -/
inductive RecoveryStrategy where
  | ImmediateRetry
  | DelayedRetry (delay_ms : Nat)
  | ExponentialBackoff (initial_delay max_delay : Nat) (multiplier : ℚ)
  | Skip
  | UseDefault
  | UseFallback
  | Fail
deriving Repr, DecidableEq

/-- `RecoveryError<E>` from `error_recovery/mod.rs`. -/
inductive RecoveryError (E : Type) where
  | MaxRetriesExceeded (e : E)
  | RecoveryAborted (e : E)
  | OperationSkipped
  | UseDefaultRequested
  | UseFallbackRequested

/-- `ErrorThresholds` from `error_recovery/mod.rs`; the wall-clock
`time_window` field only feeds `error_count_in_window` and is represented by
the `windowCount` parameter of the functions below. -/
structure ErrorThresholds where
  consecutive_failure_threshold : Nat
  overall_error_rate_threshold : ℚ
  error_count_per_window : Nat

/-- `RecoveryConfig` from `error_recovery/mod.rs`; the `HashMap` becomes a
partial function, `get(..).unwrap_or(..)` applying the default below. -/
structure RecoveryConfig where
  max_retries : Nat
  strategy_map : ErrorCategory → Option RecoveryStrategy
  adaptive_adjustment : Bool
  error_thresholds : ErrorThresholds

namespace ErrorRecovery

/-- `ErrorStatistics` from `error_recovery/mod.rs`; `recent_errors` keeps the
categories in arrival order (newest last), timestamps elided. -/
structure ErrorStatistics where
  total_errors : Nat
  successful_recoveries : Nat
  failed_recoveries : Nat
  category_counts : ErrorCategory → Nat
  recent_errors : List ErrorCategory

/-- `ErrorStatistics::record_error`: bump totals, push the category, and
drain the oldest 100 entries once the buffer exceeds 1000. -/
def ErrorStatistics.record_error (s : ErrorStatistics)
    (category : ErrorCategory) : ErrorStatistics :=
  let pushed := s.recent_errors ++ [category]
  { s with
    total_errors := s.total_errors + 1,
    category_counts := fun c =>
      if c = category then s.category_counts c + 1 else s.category_counts c,
    recent_errors := if 1000 < pushed.length then pushed.drop 100 else pushed }

/-- `ErrorStatistics::record_successful_recovery`. -/
def ErrorStatistics.record_successful_recovery (s : ErrorStatistics) :
    ErrorStatistics :=
  { s with successful_recoveries := s.successful_recoveries + 1 }

/-- `ErrorStatistics::record_failed_recovery`. -/
def ErrorStatistics.record_failed_recovery (s : ErrorStatistics) :
    ErrorStatistics :=
  { s with failed_recoveries := s.failed_recoveries + 1 }

/-- `ErrorStatistics::error_rate`: `failed_recoveries / total_errors`, zero
when no errors were recorded. -/
def ErrorStatistics.error_rate (s : ErrorStatistics) : ℚ :=
  if s.total_errors = 0 then 0
  else (s.failed_recoveries : ℚ) / (s.total_errors : ℚ)

/-- `ErrorRecoveryManager::should_attempt_recovery`: count the occurrences of
the category among the newest `consecutive_failure_threshold` entries, then
check the windowed error count and the overall error rate. -/
def shouldAttemptRecovery (cfg : RecoveryConfig) (s : ErrorStatistics)
    (category : ErrorCategory) (windowCount : Nat) : Bool :=
  let recent_failures :=
    ((s.recent_errors.reverse.take
        cfg.error_thresholds.consecutive_failure_threshold).filter
      (fun c => c == category)).length
  if cfg.error_thresholds.consecutive_failure_threshold ≤ recent_failures then
    false
  else if cfg.error_thresholds.error_count_per_window ≤ windowCount then false
  else if cfg.error_thresholds.overall_error_rate_threshold < s.error_rate then
    false
  else true

/-- `ErrorRecoveryManager::get_recovery_strategy`: table lookup with the
`DelayedRetry(200ms)` default. -/
def getRecoveryStrategy (cfg : RecoveryConfig) (category : ErrorCategory) :
    RecoveryStrategy :=
  (cfg.strategy_map category).getD (RecoveryStrategy.DelayedRetry 200)

/-- `ErrorRecoveryManager::retry_with_strategy`, as a recursion on the number
of remaining loop iterations (`remaining + attempt = max_retries`): invoke the
operation, record recovery statistics, and stop at the final attempt with
`MaxRetriesExceeded`; the result also carries the number of invocations. -/
def retryAux {E T : Type} (ecat : E → ErrorCategory) (op : Nat → Except E T) :
    Nat → Nat → ErrorStatistics →
      Option (Except (RecoveryError E) T) × ErrorStatistics × Nat
  | 0, _, stats => (none, stats, 0)
  | remaining + 1, attempt, stats =>
      match op attempt with
      | Except.ok t =>
          (some (Except.ok t), stats.record_successful_recovery, 1)
      | Except.error e =>
          if remaining = 0 then
            (some (Except.error (RecoveryError.MaxRetriesExceeded e)),
              stats.record_failed_recovery, 1)
          else
            let out := retryAux ecat op remaining (attempt + 1)
              (stats.record_error (ecat e))
            (out.1, out.2.1, out.2.2 + 1)

/-- `ErrorRecoveryManager::retry_with_exponential_backoff`, as a recursion on
the remaining iterations. Every attempt after the first sleeps
`current_delay` and then updates it to
`min(floor(current_delay * multiplier), max_delay)`; the result additionally
records the list of slept delays in order. -/
def backoffAux {E T : Type} (ecat : E → ErrorCategory)
    (op : Nat → Except E T) (multiplier : ℚ) (max_delay : Nat) :
    Nat → Nat → Nat → ErrorStatistics →
      Option (Except (RecoveryError E) T) × ErrorStatistics × Nat × List Nat
  | 0, _, _, stats => (none, stats, 0, [])
  | remaining + 1, attempt, current_delay, stats =>
      let slept : List Nat := if 0 < attempt then [current_delay] else []
      let next_delay : Nat :=
        if 0 < attempt then
          min (Int.toNat ⌊(current_delay : ℚ) * multiplier⌋) max_delay
        else current_delay
      match op attempt with
      | Except.ok t =>
          (some (Except.ok t), stats.record_successful_recovery, 1, slept)
      | Except.error e =>
          if remaining = 0 then
            (some (Except.error (RecoveryError.MaxRetriesExceeded e)),
              stats.record_failed_recovery, 1, slept)
          else
            let out := backoffAux ecat op multiplier max_delay remaining
              (attempt + 1) next_delay (stats.record_error (ecat e))
            (out.1, out.2.1, out.2.2.1 + 1, slept ++ out.2.2.2)

/-- `retry_with_exponential_backoff` entry point: loop from attempt 0 with
`current_delay = initial_delay`. -/
def retry_with_exponential_backoff {E T : Type} (cfg : RecoveryConfig)
    (ecat : E → ErrorCategory) (op : Nat → Except E T)
    (initial_delay max_delay : Nat) (multiplier : ℚ)
    (stats : ErrorStatistics) :
    Option (Except (RecoveryError E) T) × ErrorStatistics × Nat × List Nat :=
  backoffAux ecat op multiplier max_delay cfg.max_retries 0 initial_delay stats

/-- `ErrorRecoveryManager::attempt_recovery`: classify and record the error,
circuit-break via `should_attempt_recovery`, otherwise dispatch on the mapped
strategy; returns the outcome, the statistics, and the number of times the
operation was invoked. -/
def attempt_recovery {E T : Type} (cfg : RecoveryConfig)
    (stats₀ : ErrorStatistics) (windowCount : Nat)
    (ecat : E → ErrorCategory) (op : Nat → Except E T) (err : E) :
    Option (Except (RecoveryError E) T) × ErrorStatistics × Nat :=
  let category := ecat err
  let stats := stats₀.record_error category
  if shouldAttemptRecovery cfg stats category windowCount = false then
    (some (Except.error (RecoveryError.RecoveryAborted err)), stats, 0)
  else
    match getRecoveryStrategy cfg category with
    | RecoveryStrategy.Fail =>
        (some (Except.error (RecoveryError.RecoveryAborted err)), stats, 0)
    | RecoveryStrategy.Skip =>
        (some (Except.error RecoveryError.OperationSkipped), stats, 0)
    | RecoveryStrategy.UseDefault =>
        (some (Except.error RecoveryError.UseDefaultRequested), stats, 0)
    | RecoveryStrategy.UseFallback =>
        (some (Except.error RecoveryError.UseFallbackRequested), stats, 0)
    | RecoveryStrategy.ImmediateRetry => retryAux ecat op cfg.max_retries 0 stats
    | RecoveryStrategy.DelayedRetry _ => retryAux ecat op cfg.max_retries 0 stats
    | RecoveryStrategy.ExponentialBackoff i mx m =>
        let out := backoffAux ecat op m mx cfg.max_retries 0 i stats
        (out.1, out.2.1, out.2.2.1)

end ErrorRecovery

/-- An operation that always fails. -/
def alwaysFail : Nat → Except Unit Unit := fun _ => Except.error ()

/-- An operation that always succeeds. -/
def alwaysOk : Nat → Except Unit Unit := fun _ => Except.ok ()

/-- A recovery configuration with 3 retries and default thresholds. -/
def cfg3 : RecoveryConfig :=
  { max_retries := 3, strategy_map := fun _ => none,
    adaptive_adjustment := true, error_thresholds := ⟨5, 3 / 10, 10⟩ }

/-- Statistics with nothing recorded. -/
def statsEmpty : ErrorRecovery.ErrorStatistics :=
  ⟨0, 0, 0, fun _ => 0, []⟩

/-- A configuration whose consecutive-failure threshold (902) exceeds what
survives a buffer drain, mapping every category to `ImmediateRetry`. -/
def cfg902 : RecoveryConfig :=
  { max_retries := 1,
    strategy_map := fun _ => some RecoveryStrategy.ImmediateRetry,
    adaptive_adjustment := true, error_thresholds := ⟨902, 3 / 10, 10⟩ }

/-- Statistics holding exactly 1000 recorded `Network` errors. -/
def stats1000 : ErrorRecovery.ErrorStatistics :=
  ⟨1000, 0, 0, fun _ => 0, List.replicate 1000 ErrorCategory.Network⟩

/-- A configuration with consecutive-failure threshold 2. -/
def cfgThr2 : RecoveryConfig :=
  { max_retries := 3, strategy_map := fun _ => none,
    adaptive_adjustment := true, error_thresholds := ⟨2, 3 / 10, 10⟩ }

/-- Statistics whose two most recent failures are OCR failures. -/
def statsOCR2 : ErrorRecovery.ErrorStatistics :=
  ⟨2, 0, 0, fun _ => 0, [ErrorCategory.OCR, ErrorCategory.OCR]⟩

end FurinaOCR

namespace FurinaOCR

/-! ## Claims about ScanState -/

/-- Helper: the defining bounds and value of `(ic + col - 1) / col`, the
ceiling division performed by `ScanState::new`. -/
theorem ceilDiv_bounds (ic col : Nat) (h1 : 0 < ic) (h2 : 0 < col) :
    ic ≤ col * (ic ⌈/⌉ col) ∧ col * (ic ⌈/⌉ col - 1) < ic := by
  have hub : ic ≤ col * (ic ⌈/⌉ col) := (ceilDiv_le_iff_le_mul h2).mp le_rfl
  have hT1 : 1 ≤ ic ⌈/⌉ col := by
    rcases Nat.eq_zero_or_pos (ic ⌈/⌉ col) with h | h
    · rw [h, Nat.mul_zero] at hub; omega
    · exact h
  refine ⟨hub, ?_⟩
  by_contra h
  push_neg at h
  have : ic ⌈/⌉ col ≤ ic ⌈/⌉ col - 1 := (ceilDiv_le_iff_le_mul h2).mpr h
  omega

/-- Helper: the exact value of the ceiling division in terms of `/` and `%`. -/
theorem ceilDiv_value (ic col : Nat) (h1 : 0 < ic) (h2 : 0 < col) :
    ic ⌈/⌉ col = if ic % col = 0 then ic / col else ic / col + 1 := by
  have hqr : col * (ic / col) + ic % col = ic := Nat.div_add_mod ic col
  have hub : ic ≤ col * (ic ⌈/⌉ col) := (ceilDiv_bounds ic col h1 h2).1
  have hlb : col * (ic ⌈/⌉ col - 1) < ic := (ceilDiv_bounds ic col h1 h2).2
  have hT1 : 1 ≤ ic ⌈/⌉ col := by
    rcases Nat.eq_zero_or_pos (ic ⌈/⌉ col) with h | h
    · rw [h, Nat.mul_zero] at hub; omega
    · exact h
  by_cases hr : ic % col = 0
  · simp only [hr, if_pos]
    apply Nat.le_antisymm
    · have hle : ic ≤ col * (ic / col) := by omega
      have := (ceilDiv_le_iff_le_mul h2).mpr hle
      exact this
    · have : col * (ic / col) ≤ col * (ic ⌈/⌉ col) := by omega
      exact Nat.le_of_mul_le_mul_left this h2
  · simp only [hr, if_neg, if_false]
    apply Nat.le_antisymm
    · apply (ceilDiv_le_iff_le_mul h2).mpr
      have : col * (ic / col + 1) = col * (ic / col) + col := by ring
      have hmod : ic % col < col := Nat.mod_lt _ h2
      omega
    · have h' : ¬ (ic ⌈/⌉ col ≤ ic / col) := by
        intro hc
        have := (ceilDiv_le_iff_le_mul h2).mp hc
        omega
      omega

/-- Helper: the last-row arithmetic over plain variables `q = ic / col`,
`r = ic % col`, `T = ceil(ic / col)`. -/
theorem lastRowColArith (col q r T : Nat) (h2 : 0 < col) (hrlt : r < col)
    (hpos : 0 < col * q + r) (hT : T = if r = 0 then q else q + 1) :
    (if r = 0 then col else r) = (col * q + r) - (T - 1) * col := by
  by_cases hr : r = 0
  · rw [if_pos hr] at hT ⊢
    rw [hT, hr]
    have hq1 : 1 ≤ q := by
      rcases Nat.eq_zero_or_pos q with h | h
      · rw [h, hr] at hpos; simp at hpos
      · exact h
    have hsub : (q - 1) * col = q * col - 1 * col := Nat.sub_mul _ _ _
    have hcm : q * col = col * q := Nat.mul_comm _ _
    have hle : col ≤ q * col := by
      calc col = 1 * col := (Nat.one_mul col).symm
      _ ≤ q * col := Nat.mul_le_mul_right col hq1
    omega
  · rw [if_neg hr] at hT ⊢
    rw [hT, Nat.add_sub_cancel]
    have hcm : q * col = col * q := Nat.mul_comm _ _
    omega

/-- C2: for `item_count, col > 0`, `ScanState::new` establishes
`total_row = ceil(item_count / col)` (stated via `⌈/⌉` together with the
defining bounds of the ceiling) and
`last_row_col = item_count - (total_row - 1) * col`, with
`last_row_col = col` in the evenly divisible case; in particular
`item_count = 75, col = 8` gives `total_row = 10` and `last_row_col = 3`. -/
theorem scanState_new_invariant (ic col : Nat) (h1 : 0 < ic) (h2 : 0 < col) :
    (ScanState.new ic col).total_row = ic ⌈/⌉ col ∧
    ic ≤ col * (ScanState.new ic col).total_row ∧
    col * ((ScanState.new ic col).total_row - 1) < ic ∧
    (ScanState.new ic col).last_row_col
      = ic - ((ScanState.new ic col).total_row - 1) * col ∧
    (ic % col = 0 → (ScanState.new ic col).last_row_col = col) ∧
    (ScanState.new 75 8).total_row = 10 ∧ (ScanState.new 75 8).last_row_col = 3 := by
  have hceil : (ScanState.new ic col).total_row = ic ⌈/⌉ col := rfl
  have hlast : (ScanState.new ic col).last_row_col
      = if ic % col = 0 then col else ic % col := rfl
  have hqr : col * (ic / col) + ic % col = ic := Nat.div_add_mod ic col
  have hmod : ic % col < col := Nat.mod_lt _ h2
  refine ⟨hceil, ?_, ?_, ?_, ?_, by decide, by decide⟩
  · rw [hceil]; exact (ceilDiv_bounds ic col h1 h2).1
  · rw [hceil]; exact (ceilDiv_bounds ic col h1 h2).2
  · rw [hceil, hlast, ceilDiv_value ic col h1 h2]
    have harith := lastRowColArith col (ic / col) (ic % col)
      (if ic % col = 0 then ic / col else ic / col + 1) h2 hmod
      (by rw [Nat.div_add_mod]; exact h1) rfl
    rw [Nat.div_add_mod] at harith
    exact harith
  · rw [hlast]
    intro h
    simp [h]

/-- Witness for C2 at `item_count = 75`, `col = 8`. -/
theorem scanState_new_invariant_witness :
    (0 < 75 ∧ 0 < 8) ∧
    ((ScanState.new 75 8).total_row = 10 ∧ (ScanState.new 75 8).last_row_col = 3) :=
  ⟨⟨by decide, by decide⟩,
    ⟨(scanState_new_invariant 75 8 (by decide) (by decide)).2.2.2.2.2.1,
     (scanState_new_invariant 75 8 (by decide) (by decide)).2.2.2.2.2.2⟩⟩

/-- C1 (divergence witness): at `item_count = 75`, `scanned_count = 59`,
`col = 8`, `row = 5` (so `remain = 16`), the code's
`calculate_remaining_scan_params` — which divides the remaining item count by
its `controller_row` argument, instantiated by `handle_page_scroll` with the
row count — returns `(4, 1)`, while the spec formula
`remain_row = ceil(remain / col)` yields `(2, 3)`; the sibling implementation
`get_start_row` in `artifact_scanner.rs`, which divides by `col`, computes
start row `3` for the same scenario, contradicting the controller. -/
theorem calculate_remaining_scan_params_divergence :
    ScanState.calculate_remaining_scan_params
      { ScanState.new 75 8 with scanned_count := 59 } 5 = (4, 1) ∧
    specRemainingScanParams 75 59 8 5 = (2, 3) ∧
    get_start_row 8 5 75 59 = 3 := by
  refine ⟨?_, ?_, ?_⟩ <;> rfl

/-! ## Claims about GenshinArtifactScanResult -/

/-- C3: two scan results whose eight content fields agree are equal under the
manual `PartialEq` implementation and write identical streams to any hasher,
whatever their `scan_errors` and `confidence_score` are. -/
theorem scanResult_content_eq_hash (a b : GenshinArtifactScanResult)
    (h1 : a.name = b.name) (h2 : a.main_stat_name = b.main_stat_name)
    (h3 : a.main_stat_value = b.main_stat_value) (h4 : a.sub_stat = b.sub_stat)
    (h5 : a.equip = b.equip) (h6 : a.level = b.level) (h7 : a.star = b.star)
    (h8 : a.lock = b.lock) :
    a.eqImpl b = true ∧ a.hashTokens = b.hashTokens := by
  constructor
  · simp [GenshinArtifactScanResult.eqImpl, h1, h2, h3, h4, h5, h6, h7, h8]
  · simp [GenshinArtifactScanResult.hashTokens, h1, h2, h3, h4, h5, h6, h7, h8]

/-- Witness for C3: two concrete results with equal content but different
error lists and confidence scores. -/
theorem scanResult_content_eq_hash_witness :
    (sampleResultA.eqImpl sampleResultB = true ∧
      sampleResultA.hashTokens = sampleResultB.hashTokens) ∧
    sampleResultA.scan_errors ≠ sampleResultB.scan_errors ∧
    sampleResultA.confidence_score ≠ sampleResultB.confidence_score :=
  ⟨scanResult_content_eq_hash sampleResultA sampleResultB
      rfl rfl rfl rfl rfl rfl rfl rfl,
   by decide, by norm_num [sampleResultA, sampleResultB]⟩

/-- Helper: every penalty factor of `add_error` is positive. -/
theorem penalty_pos (e : ArtifactScanError) : 0 < e.penalty := by
  cases e <;> norm_num [ArtifactScanError.penalty]

/-- Helper: every penalty factor of `add_error` is at most one. -/
theorem penalty_le_one (e : ArtifactScanError) : e.penalty ≤ 1 := by
  cases e <;> norm_num [ArtifactScanError.penalty]

/-- Helper: `add_error` never increases a nonnegative confidence score. -/
theorem add_error_conf_le (r : GenshinArtifactScanResult)
    (e : ArtifactScanError) (h0 : 0 ≤ r.confidence_score) :
    (r.add_error e).confidence_score ≤ r.confidence_score := by
  simp only [GenshinArtifactScanResult.add_error]
  exact max_le (mul_le_of_le_one_right h0 (penalty_le_one e)) h0

/-- Helper: `add_error` keeps the confidence score nonnegative. -/
theorem add_error_conf_nonneg (r : GenshinArtifactScanResult)
    (e : ArtifactScanError) : 0 ≤ (r.add_error e).confidence_score :=
  le_max_right _ _

/-- Helper: `applyErrors` preserves `confidence_score ∈ [0, 1]`. -/
theorem applyErrors_conf_bounds (errs : List ArtifactScanError)
    (r : GenshinArtifactScanResult) (h0 : 0 ≤ r.confidence_score)
    (h1 : r.confidence_score ≤ 1) :
    0 ≤ (r.applyErrors errs).confidence_score ∧
      (r.applyErrors errs).confidence_score ≤ 1 := by
  induction errs generalizing r with
  | nil => exact ⟨h0, h1⟩
  | cons e rest ih =>
      have hstep : (r.add_error e).confidence_score ≤ 1 :=
        le_trans (add_error_conf_le r e h0) h1
      exact ih (r.add_error e) (add_error_conf_nonneg r e) hstep

/-- C4: starting from `GenshinArtifactScanResult::new` (confidence 1.0, empty
error list), after any finite sequence of `add_error` calls the confidence
score lies in `[0, 1]`, and one more `add_error` call with an arbitrary error
never increases it. -/
theorem scanResult_confidence_monotone (name msn msv : String)
    (ss : List String) (equip : String) (level star : Int) (lock : Bool)
    (errs : List ArtifactScanError) (e : ArtifactScanError) :
    0 ≤ ((GenshinArtifactScanResult.new name msn msv ss equip level star
        lock).applyErrors errs).confidence_score ∧
    ((GenshinArtifactScanResult.new name msn msv ss equip level star
        lock).applyErrors errs).confidence_score ≤ 1 ∧
    (((GenshinArtifactScanResult.new name msn msv ss equip level star
        lock).applyErrors errs).add_error e).confidence_score ≤
      ((GenshinArtifactScanResult.new name msn msv ss equip level star
        lock).applyErrors errs).confidence_score := by
  have hnew0 : (0 : ℚ) ≤ (GenshinArtifactScanResult.new name msn msv ss equip
      level star lock).confidence_score := by norm_num [GenshinArtifactScanResult.new]
  have hnew1 : (GenshinArtifactScanResult.new name msn msv ss equip level star
      lock).confidence_score ≤ 1 := by norm_num [GenshinArtifactScanResult.new]
  have hb := applyErrors_conf_bounds errs _ hnew0 hnew1
  exact ⟨hb.1, hb.2, add_error_conf_le _ e hb.1⟩

/-! ## Claims about parse_level -/

/-- Helper: when no separator occurs, the separator suffix is empty. -/
theorem dropWhile_of_no_sep (s : List Char) (h : '+' ∉ s) :
    s.dropWhile (fun c => c != '+') = [] :=
  List.dropWhile_eq_nil_iff.mpr (fun x hx => by
    simp only [bne_iff_ne, ne_eq]
    intro he
    exact h (he ▸ hx))

/-- Helper: the separator suffix of `pre ++ '+' :: rest` with `'+' ∉ pre` is
`'+' :: rest`. -/
theorem dropWhile_append_sep (pre rest : List Char) (h : '+' ∉ pre) :
    (pre ++ '+' :: rest).dropWhile (fun c => c != '+') = '+' :: rest := by
  induction pre with
  | nil =>
      rw [List.nil_append, List.dropWhile_cons_of_neg (by simp)]
  | cons c cs ih =>
      have hc : c ≠ '+' := fun he => h (by simp [he])
      have hcs : '+' ∉ cs := fun hm => h (List.mem_cons_of_mem _ hm)
      rw [List.cons_append, List.dropWhile_cons_of_pos (by simp [hc])]
      exact ih hcs

/-- C7: `parse_level` accepts a bare integer (anything `str::parse::<i32>`
accepts when no separator is present), accepts any text whose first separator
is followed by text that parses as an integer (the slice taken by the code
starts at the separator, and Rust integer parsing accepts the leading sign),
and errors on everything else; in particular `parse_level("15") = 15`,
`parse_level("+15") = 15`, and `parse_level("abc")` is a parsing error. -/
theorem parse_level_spec :
    (∀ s n, '+' ∉ s → parseI32 s = some n → parse_level s = Except.ok n) ∧
    (∀ pre rest n, '+' ∉ pre → parseI32 ('+' :: rest) = some n →
        parse_level (pre ++ '+' :: rest) = Except.ok n) ∧
    (∀ s, '+' ∉ s → parseI32 s = none →
        parse_level s = Except.error ("等级解析失败: 无法解析数字 " ++ String.mk s)) ∧
    (∀ pre rest, '+' ∉ pre → parseI32 ('+' :: rest) = none →
        parse_level (pre ++ '+' :: rest) =
          Except.error ("等级解析失败: 无法解析带+号的等级 "
            ++ String.mk ('+' :: rest))) ∧
    parse_level "15".toList = Except.ok 15 ∧
    parse_level "+15".toList = Except.ok 15 ∧
    parse_level "abc".toList =
      Except.error ("等级解析失败: 无法解析数字 " ++ String.mk "abc".toList) := by
  refine ⟨?_, ?_, ?_, ?_, by rfl, by rfl, by rfl⟩
  · intro s n h hp
    have hd := dropWhile_of_no_sep s h
    simp [parse_level, hd, hp]
  · intro pre rest n h hp
    have hd := dropWhile_append_sep pre rest h
    simp [parse_level, hd, hp]
  · intro s h hp
    have hd := dropWhile_of_no_sep s h
    simp [parse_level, hd, hp]
  · intro pre rest h hp
    have hd := dropWhile_append_sep pre rest h
    simp [parse_level, hd, hp]

/-- Witness for C7: bare `"15"`, and `"ab+15"` through the separator path. -/
theorem parse_level_spec_witness :
    ('+' ∉ "15".toList ∧ parseI32 "15".toList = some 15) ∧
    parse_level "15".toList = Except.ok 15 ∧
    ('+' ∉ "ab".toList ∧ parseI32 ('+' :: "15".toList) = some 15) ∧
    parse_level ("ab".toList ++ '+' :: "15".toList) = Except.ok 15 :=
  ⟨⟨by decide, by decide⟩,
   parse_level_spec.1 "15".toList 15 (by decide) (by decide),
   ⟨by decide, by decide⟩,
   parse_level_spec.2.1 "ab".toList "15".toList 15 (by decide) (by decide)⟩

/-! ## Claims about ErrorStatistics -/

/-- C9 counterexample: with 1 success and 1 error, `get_success_rate` returns
the percentage `50.0`, not the fraction `1/2` the claim states. -/
theorem get_success_rate_percent_counterexample :
    (ErrorStatistics.new.add_success.add_error
        (ArtifactScanError.Unknown "OCR超时")).get_success_rate = 50 ∧
    ¬ (ErrorStatistics.new.add_success.add_error
        (ArtifactScanError.Unknown "OCR超时")).get_success_rate = 1 / 2 := by
  constructor <;>
    norm_num [ErrorStatistics.new, ErrorStatistics.add_success,
      ErrorStatistics.add_error, ErrorStatistics.get_success_rate]

/-- C9 (amended): `get_success_rate` returns 0 for 0 total attempts (no
division by zero), and for `k` successes out of `n > 0` total attempts it
returns the percentage `(k / n) * 100`. -/
theorem get_success_rate_amended (s : ErrorStatistics) :
    (s.successful_scans + s.total_errors = 0 → s.get_success_rate = 0) ∧
    (0 < s.successful_scans + s.total_errors →
      s.get_success_rate =
        (s.successful_scans : ℚ)
          / ((s.successful_scans + s.total_errors : Nat) : ℚ) * 100) := by
  constructor
  · intro h
    simp [ErrorStatistics.get_success_rate, h]
  · intro h
    have hne : ¬ (s.successful_scans + s.total_errors = 0) := by omega
    simp [ErrorStatistics.get_success_rate, hne]

/-- Witness for C9 at 3 successes, 1 error: 75 percent. -/
theorem get_success_rate_amended_witness :
    0 < sampleStats.successful_scans + sampleStats.total_errors ∧
    sampleStats.get_success_rate =
      (sampleStats.successful_scans : ℚ)
        / ((sampleStats.successful_scans + sampleStats.total_errors : Nat) : ℚ)
        * 100 :=
  ⟨by decide, (get_success_rate_amended sampleStats).2 (by decide)⟩

/-! ## Claims about the worker consume loop -/

/-- C10: when an item's running index falls outside the accumulated lock
vector, the lock flag the loop computes is `false`, and the iteration behaves
exactly as if the flag `false` had been supplied — a missing lock entry never
fails the item (the lookup is total via `unwrap_or(false)`). -/
theorem worker_lock_default (env : WorkerEnv) (ev : WEvent) (s : WState)
    (h : (updatedLocks s ev).length ≤ s.artifact_index) :
    lockFlagUsed s ev = false ∧ wstep env ev s = wstepFlag env ev s false := by
  have hl : lockFlagUsed s ev = false := by
    unfold lockFlagUsed
    rw [List.getElem?_eq_none h]
    rfl
  exact ⟨hl, by unfold wstep; rw [hl]⟩

/-- Witness for C10: the very first item, before any list strip arrived. -/
theorem worker_lock_default_witness :
    (updatedLocks ws0 wev).length ≤ ws0.artifact_index ∧
    (lockFlagUsed ws0 wev = false ∧
      wstep wenv wev ws0 = wstepFlag wenv wev ws0 false) :=
  ⟨by decide, worker_lock_default wenv wev ws0 (by decide)⟩

/-- Helper: the value of one loop iteration on a duplicate at or above the
streak threshold: break when `ignore_dup` is unset, otherwise continue. -/
theorem wstep_duplicate (env : WorkerEnv) (ev : WEvent) (s : WState)
    (r : GenshinArtifactScanResult)
    (hscan : ev.scan (lockFlagUsed s ev) = Except.ok r)
    (hlev : ¬ r.level < env.min_level)
    (hdup : hashContains s.hashSet r = true)
    (hcol : env.col ≤ s.consecutive_dup_count + 1) :
    wstep env ev s =
      if env.ignore_dup = false then StepRes.halt (dupStepState env ev s)
      else StepRes.cont (dupStepState env ev s) := by
  unfold wstep wstepFlag
  rw [hscan]
  simp only [if_neg hlev, hdup, if_true, dupStepState]
  by_cases hig : env.ignore_dup = false
  · rw [if_pos ⟨hcol, hig⟩, if_pos hig]
  · rw [if_neg (fun hc => hig hc.2), if_neg hig]

/-- C8: if processing the next item yields a duplicate that brings the
consecutive-duplicate counter to `col`, then with `ignore_dup = false` the
loop aborts — the remaining messages are not consumed, and the
`ConsecutiveDuplicateItems` error shows in the statistics — while with
`ignore_dup = true` the loop continues into the remaining messages. -/
theorem worker_duplicate_streak (env : WorkerEnv) (ev : WEvent) (s : WState)
    (rest : List (Option WEvent)) (r : GenshinArtifactScanResult)
    (hscan : ev.scan (lockFlagUsed s ev) = Except.ok r)
    (hlev : ¬ r.level < env.min_level)
    (hdup : hashContains s.hashSet r = true)
    (hcol : env.col ≤ s.consecutive_dup_count + 1) :
    (env.ignore_dup = false →
      runLoop env (some ev :: rest) s = dupStepState env ev s ∧
      (runLoop env (some ev :: rest) s).error_stats.duplicate_items
        = s.error_stats.duplicate_items + 1) ∧
    (env.ignore_dup = true →
      runLoop env (some ev :: rest) s
        = runLoop env rest (dupStepState env ev s)) := by
  have hw := wstep_duplicate env ev s r hscan hlev hdup hcol
  have hdupl : (dupStepState env ev s).error_stats.duplicate_items
      = s.error_stats.duplicate_items + 1 := by
    simp [dupStepState, ErrorStatistics.add_success, ErrorStatistics.add_error]
  constructor
  · intro hig
    rw [if_pos hig] at hw
    have hrun : runLoop env (some ev :: rest) s = dupStepState env ev s := by
      simp only [runLoop, hw]
    exact ⟨hrun, by rw [hrun]; exact hdupl⟩
  · intro hig
    rw [if_neg (by rw [hig]; exact fun h => Bool.noConfusion h)] at hw
    simp only [runLoop, hw]

/-- Witness for C8: a one-column page whose sole item repeats; with
`ignore_dup = false` the loop stops and records the duplicate-streak error,
with `ignore_dup = true` it goes on to the rest of the channel. -/
theorem worker_duplicate_streak_witness :
    (runLoop wenv [some wev, none] ws0 = dupStepState wenv wev ws0 ∧
      (runLoop wenv [some wev, none] ws0).error_stats.duplicate_items
        = ws0.error_stats.duplicate_items + 1) ∧
    runLoop wenvIgnore [some wev, none] ws0
      = runLoop wenvIgnore [none] (dupStepState wenvIgnore wev ws0) :=
  ⟨(worker_duplicate_streak wenv wev ws0 [none] sampleResultA rfl
      (by decide) (by decide) (by decide)).1 rfl,
   (worker_duplicate_streak wenvIgnore wev ws0 [none] sampleResultA rfl
      (by decide) (by decide) (by decide)).2 rfl⟩

/-! ## Claims about the error recovery engine -/

/-- Helper: with a multiplier at least 1, the backoff update
`min(floor(cur * m), max_delay)` neither drops below the current delay nor
exceeds the cap. -/
theorem nextDelay_bounds (m : ℚ) (hm : 1 ≤ m) (maxd cur : Nat)
    (hcur : cur ≤ maxd) :
    cur ≤ min (Int.toNat ⌊(cur : ℚ) * m⌋) maxd ∧
    min (Int.toNat ⌊(cur : ℚ) * m⌋) maxd ≤ maxd := by
  refine ⟨le_min ?_ hcur, min_le_right _ _⟩
  have h1 : (cur : ℚ) ≤ (cur : ℚ) * m :=
    le_mul_of_one_le_right (by positivity) hm
  have h2 : (cur : ℤ) ≤ ⌊(cur : ℚ) * m⌋ := by
    apply Int.le_floor.mpr
    push_cast
    exact h1
  have h3 : (0 : ℤ) ≤ ⌊(cur : ℚ) * m⌋ := le_trans (Int.natCast_nonneg cur) h2
  exact (Int.le_toNat h3).mpr h2

/-- Helper: for a multiplier at least 1 and a current delay within the cap,
every delay slept by the backoff loop stays between the current delay and the
cap, and the slept sequence is non-decreasing. -/
theorem backoffAux_slept {E T : Type} (ecat : E → ErrorCategory)
    (op : Nat → Except E T) (m : ℚ) (maxd : Nat) (hm : 1 ≤ m) :
    ∀ (remaining attempt cur : Nat) (stats : ErrorRecovery.ErrorStatistics),
      cur ≤ maxd →
      (∀ d ∈ (ErrorRecovery.backoffAux ecat op m maxd remaining attempt cur
          stats).2.2.2, cur ≤ d ∧ d ≤ maxd) ∧
      List.Chain' (· ≤ ·)
        (ErrorRecovery.backoffAux ecat op m maxd remaining attempt cur
          stats).2.2.2 := by
  intro remaining
  induction remaining with
  | zero =>
      intro attempt cur stats hcur
      constructor
      · intro d hd
        simp [ErrorRecovery.backoffAux] at hd
      · simp [ErrorRecovery.backoffAux]
  | succ n ih =>
      intro attempt cur stats hcur
      by_cases hatt : 0 < attempt
      · have hnd := nextDelay_bounds m hm maxd cur hcur
        cases hop : op attempt with
        | ok t =>
            constructor
            · intro d hd
              simp only [ErrorRecovery.backoffAux, hop, if_pos hatt] at hd
              simp at hd
              exact ⟨hd ▸ le_rfl, hd ▸ hcur⟩
            · simp only [ErrorRecovery.backoffAux, hop, if_pos hatt]
              simp
        | error e =>
            by_cases hrem : n = 0
            · subst hrem
              constructor
              · intro d hd
                simp only [ErrorRecovery.backoffAux, hop, if_pos hatt] at hd
                simp at hd
                exact ⟨hd ▸ le_rfl, hd ▸ hcur⟩
              · simp only [ErrorRecovery.backoffAux, hop, if_pos hatt]
                simp
            · have ihh := ih (attempt + 1)
                (min (Int.toNat ⌊(cur : ℚ) * m⌋) maxd)
                (stats.record_error (ecat e)) hnd.2
              constructor
              · intro d hd
                simp only [ErrorRecovery.backoffAux, hop, if_pos hatt,
                  if_neg hrem] at hd
                simp only [List.singleton_append, List.mem_cons] at hd
                rcases hd with hd | hd
                · exact ⟨hd ▸ le_rfl, hd ▸ hcur⟩
                · have hdd := ihh.1 d hd
                  exact ⟨le_trans hnd.1 hdd.1, hdd.2⟩
              · simp only [ErrorRecovery.backoffAux, hop, if_pos hatt,
                  if_neg hrem, List.singleton_append]
                refine List.chain'_cons'.mpr ⟨?_, ihh.2⟩
                intro y hy
                exact le_trans hnd.1 (ihh.1 y (List.mem_of_mem_head? hy)).1
      · cases hop : op attempt with
        | ok t =>
            constructor
            · intro d hd
              simp only [ErrorRecovery.backoffAux, hop, if_neg hatt] at hd
              simp at hd
            · simp only [ErrorRecovery.backoffAux, hop, if_neg hatt]
              simp
        | error e =>
            by_cases hrem : n = 0
            · subst hrem
              constructor
              · intro d hd
                simp only [ErrorRecovery.backoffAux, hop, if_neg hatt] at hd
                simp at hd
              · simp only [ErrorRecovery.backoffAux, hop, if_neg hatt]
                simp
            · have ihh := ih (attempt + 1) cur
                (stats.record_error (ecat e)) hcur
              constructor
              · intro d hd
                simp only [ErrorRecovery.backoffAux, hop, if_neg hatt,
                  if_neg hrem] at hd
                simp only [List.nil_append] at hd
                exact ihh.1 d hd
              · simp only [ErrorRecovery.backoffAux, hop, if_neg hatt,
                  if_neg hrem, List.nil_append]
                exact ihh.2

/-- C5 (amended): provided `multiplier ≥ 1` and `initial_delay ≤ max_delay`,
the delays slept by `retry_with_exponential_backoff` form a non-decreasing
sequence bounded above by `max_delay`, for any operation outcomes and any
configured number of attempts. -/
theorem backoff_delays_monotone_bounded {E T : Type} (cfg : RecoveryConfig)
    (ecat : E → ErrorCategory) (op : Nat → Except E T)
    (initial_delay max_delay : Nat) (m : ℚ)
    (stats : ErrorRecovery.ErrorStatistics)
    (hm : 1 ≤ m) (hinit : initial_delay ≤ max_delay) :
    List.Chain' (· ≤ ·)
      (ErrorRecovery.retry_with_exponential_backoff cfg ecat op initial_delay
        max_delay m stats).2.2.2 ∧
    ∀ d ∈ (ErrorRecovery.retry_with_exponential_backoff cfg ecat op
        initial_delay max_delay m stats).2.2.2, d ≤ max_delay := by
  have h := backoffAux_slept ecat op m max_delay hm cfg.max_retries 0
    initial_delay stats hinit
  exact ⟨h.2, fun d hd => (h.1 d hd).2⟩

/-- Witness for C5: multiplier 2, delays 100 then 200, cap 10000. -/
theorem backoff_delays_monotone_bounded_witness :
    ((1 : ℚ) ≤ 2 ∧ (100 : Nat) ≤ 10000) ∧
    (List.Chain' (· ≤ ·)
      (ErrorRecovery.retry_with_exponential_backoff cfg3
        (fun _ : Unit => ErrorCategory.Network) alwaysFail 100 10000 2
        statsEmpty).2.2.2 ∧
    ∀ d ∈ (ErrorRecovery.retry_with_exponential_backoff cfg3
        (fun _ : Unit => ErrorCategory.Network) alwaysFail 100 10000 2
        statsEmpty).2.2.2, d ≤ 10000) :=
  ⟨⟨by norm_num, by norm_num⟩,
   backoff_delays_monotone_bounded cfg3 (fun _ : Unit => ErrorCategory.Network)
     alwaysFail 100 10000 2 statsEmpty (by norm_num) (by norm_num)⟩

/-- C5 counterexample: with multiplier 1/2 the slept delays are 100 then 50 —
decreasing — and with initial delay 20000 over a cap of 10000 the first slept
delay exceeds the cap; so neither monotonicity nor the bound holds
regardless of `multiplier` and `initial_delay`. -/
theorem backoff_claim_counterexample :
    (ErrorRecovery.retry_with_exponential_backoff cfg3
        (fun _ : Unit => ErrorCategory.Unknown) alwaysFail 100 10000 (1 / 2)
        statsEmpty).2.2.2 = [100, 50] ∧
    ¬ List.Chain' (· ≤ ·) ([100, 50] : List Nat) ∧
    (ErrorRecovery.retry_with_exponential_backoff cfg3
        (fun _ : Unit => ErrorCategory.Unknown) alwaysFail 20000 10000 2
        statsEmpty).2.2.2 = [20000, 10000] ∧
    ¬ (∀ d ∈ ([20000, 10000] : List Nat), d ≤ 10000) := by
  refine ⟨?_, by simp [List.chain'_cons], ?_, by decide⟩
  · norm_num [ErrorRecovery.retry_with_exponential_backoff,
      ErrorRecovery.backoffAux, cfg3, alwaysFail, Int.toNat_ofNat]
    rfl
  · norm_num [ErrorRecovery.retry_with_exponential_backoff,
      ErrorRecovery.backoffAux, cfg3, alwaysFail, Int.toNat_ofNat]

/-- Helper: membership in a `take` is preserved when taking one more. -/
theorem mem_take_succ_of_mem_take {α : Type} {l : List α} {t : Nat} {x : α}
    (hx : x ∈ l.take t) : x ∈ l.take (t + 1) := by
  have h : l.take t = (l.take (t + 1)).take t := by
    rw [List.take_take]
    congr 1
    omega
  rw [h] at hx
  exact List.take_subset _ _ hx

/-- Helper: if the newest `t` entries of `l` are all `a`, the same holds
after pushing another `a`. -/
theorem take_reverse_push {α : Type} (l : List α) (a : α) (t : Nat)
    (hall : ∀ c ∈ l.reverse.take t, c = a) :
    ∀ c ∈ (l ++ [a]).reverse.take t, c = a := by
  intro c hc
  rw [List.reverse_append] at hc
  simp only [List.reverse_cons, List.reverse_nil, List.nil_append,
    List.singleton_append] at hc
  cases t with
  | zero => simp at hc
  | succ u =>
      rw [List.take_succ_cons] at hc
      rcases List.mem_cons.mp hc with h | h
      · exact h
      · exact hall c (mem_take_succ_of_mem_take h)

/-- C6 (amended): if the recorded statistics already hold at least
`consecutive_failure_threshold` most-recent failures all of the category of
the incoming error — and the threshold is at most 901, so that the buffer
drain (oldest 100 of 1001 dropped) cannot evict the streak — then
`attempt_recovery` records the error and returns `RecoveryAborted` without
invoking the operation even once. -/
theorem circuit_breaker_aborts {E T : Type} (cfg : RecoveryConfig)
    (stats : ErrorRecovery.ErrorStatistics) (windowCount : Nat)
    (ecat : E → ErrorCategory) (op : Nat → Except E T) (err : E)
    (hthr : cfg.error_thresholds.consecutive_failure_threshold ≤ 901)
    (hlen : cfg.error_thresholds.consecutive_failure_threshold
      ≤ stats.recent_errors.length)
    (hall : ∀ c ∈ stats.recent_errors.reverse.take
        cfg.error_thresholds.consecutive_failure_threshold, c = ecat err) :
    ErrorRecovery.attempt_recovery cfg stats windowCount ecat op err
      = (some (Except.error (RecoveryError.RecoveryAborted err)),
        stats.record_error (ecat err), 0) := by
  set t := cfg.error_thresholds.consecutive_failure_threshold with ht
  set cat := ecat err with hcat
  set l := stats.recent_errors with hl
  have hpush : ∀ c ∈ (l ++ [cat]).reverse.take t, c = cat :=
    take_reverse_push l cat t hall
  have hrec : (stats.record_error cat).recent_errors
      = if 1000 < (l ++ [cat]).length then (l ++ [cat]).drop 100
        else l ++ [cat] := by
    simp [ErrorRecovery.ErrorStatistics.record_error]
  have hkey : (∀ c ∈ (stats.record_error cat).recent_errors.reverse.take t,
      c = cat) ∧ t ≤ (stats.record_error cat).recent_errors.length := by
    rw [hrec]
    by_cases hdrain : 1000 < (l ++ [cat]).length
    · rw [if_pos hdrain]
      have hlendrop : ((l ++ [cat]).drop 100).length = (l ++ [cat]).length - 100 := by
        simp
      constructor
      · intro c hc
        rw [List.reverse_drop] at hc
        rw [List.take_take] at hc
        have hmin : min t ((l ++ [cat]).length - 100) = t := by
          simp at hdrain ⊢
          omega
        rw [hmin] at hc
        exact hpush c hc
      · rw [hlendrop]
        simp at hdrain ⊢
        omega
    · rw [if_neg hdrain]
      refine ⟨hpush, ?_⟩
      simp
      omega
  have hcount : (((stats.record_error cat).recent_errors.reverse.take t).filter
      (fun c => c == cat)).length = t := by
    have hself : ((stats.record_error cat).recent_errors.reverse.take t).filter
        (fun c => c == cat)
        = (stats.record_error cat).recent_errors.reverse.take t :=
      List.filter_eq_self.mpr (fun a ha => by rw [hkey.1 a ha]; simp)
    rw [hself, List.length_take, List.length_reverse]
    omega
  have hshould : ErrorRecovery.shouldAttemptRecovery cfg
      (stats.record_error cat) cat windowCount = false := by
    unfold ErrorRecovery.shouldAttemptRecovery
    rw [← ht, hcount, if_pos le_rfl]
  unfold ErrorRecovery.attempt_recovery
  rw [← hcat, if_pos hshould]

/-- Witness for C6: threshold 2, two recorded OCR failures, next OCR error
aborts with zero invocations. -/
theorem circuit_breaker_aborts_witness :
    (cfgThr2.error_thresholds.consecutive_failure_threshold ≤ 901 ∧
      cfgThr2.error_thresholds.consecutive_failure_threshold
        ≤ statsOCR2.recent_errors.length ∧
      ∀ c ∈ statsOCR2.recent_errors.reverse.take
        cfgThr2.error_thresholds.consecutive_failure_threshold,
        c = ErrorCategory.OCR) ∧
    ErrorRecovery.attempt_recovery cfgThr2 statsOCR2 0
        (fun _ : Unit => ErrorCategory.OCR) alwaysOk ()
      = (some (Except.error (RecoveryError.RecoveryAborted ())),
        statsOCR2.record_error ErrorCategory.OCR, 0) :=
  ⟨⟨by decide, by decide, by decide⟩,
   circuit_breaker_aborts cfgThr2 statsOCR2 0
     (fun _ : Unit => ErrorCategory.OCR) alwaysOk ()
     (by decide) (by decide) (by decide)⟩

/-- C6 counterexample: with threshold 902 and 1000 recorded `Network`
failures (all of the most recent 902 of that category), `record_error` pushes
a 1001st entry and the drain drops the oldest 100, leaving only 901 matching
entries — below the threshold — so `attempt_recovery` does not abort: it
invokes the operation once and returns its success. -/
theorem circuit_breaker_counterexample :
    902 ≤ stats1000.recent_errors.length ∧
    (∀ c ∈ stats1000.recent_errors.reverse.take 902,
      c = ErrorCategory.Network) ∧
    (ErrorRecovery.attempt_recovery cfg902 stats1000 0
        (fun _ : Unit => ErrorCategory.Network) alwaysOk ()).1
      = some (Except.ok ()) ∧
    (ErrorRecovery.attempt_recovery cfg902 stats1000 0
        (fun _ : Unit => ErrorCategory.Network) alwaysOk ()).2.2 = 1 := by
  have hrec : (stats1000.record_error ErrorCategory.Network).recent_errors
      = List.replicate 901 ErrorCategory.Network := by
    have h1 : List.replicate 1000 ErrorCategory.Network
        ++ [ErrorCategory.Network]
        = List.replicate 1001 ErrorCategory.Network :=
      (List.replicate_succ' 1000 ErrorCategory.Network).symm
    simp only [ErrorRecovery.ErrorStatistics.record_error, stats1000, h1,
      List.length_replicate]
    rw [if_pos (by omega), List.drop_replicate]
  have hrate : (stats1000.record_error ErrorCategory.Network).error_rate
      = 0 := by
    simp only [ErrorRecovery.ErrorStatistics.error_rate,
      ErrorRecovery.ErrorStatistics.record_error, stats1000]
    rw [if_neg (by omega)]
    norm_num
  have hshould : ErrorRecovery.shouldAttemptRecovery cfg902
      (stats1000.record_error ErrorCategory.Network) ErrorCategory.Network 0
      = true := by
    unfold ErrorRecovery.shouldAttemptRecovery
    rw [hrec]
    have htake : (List.replicate 901 ErrorCategory.Network).reverse.take
        cfg902.error_thresholds.consecutive_failure_threshold
        = List.replicate 901 ErrorCategory.Network := by
      rw [List.reverse_replicate]
      simp only [cfg902, List.take_replicate]
      congr 1
    rw [htake]
    have hfil : (List.replicate 901 ErrorCategory.Network).filter
        (fun c => c == ErrorCategory.Network)
        = List.replicate 901 ErrorCategory.Network :=
      List.filter_eq_self.mpr
        (fun a ha => by rw [List.eq_of_mem_replicate ha]; simp)
    rw [hfil, List.length_replicate]
    rw [if_neg (by simp only [cfg902]; omega),
      if_neg (by simp only [cfg902]; omega),
      if_neg (by rw [hrate]; simp only [cfg902]; norm_num)]
  have hmain : ErrorRecovery.attempt_recovery cfg902 stats1000 0
      (fun _ : Unit => ErrorCategory.Network) alwaysOk ()
      = (some (Except.ok ()),
        (stats1000.record_error
          ErrorCategory.Network).record_successful_recovery,
        1) := by
    unfold ErrorRecovery.attempt_recovery
    rw [if_neg (by rw [hshould]; exact fun h => Bool.noConfusion h)]
    have hstrat : ErrorRecovery.getRecoveryStrategy cfg902
        ErrorCategory.Network = RecoveryStrategy.ImmediateRetry := by
      simp only [ErrorRecovery.getRecoveryStrategy, cfg902, Option.getD_some]
    rw [hstrat]
    simp only [cfg902, ErrorRecovery.retryAux, alwaysOk]
  refine ⟨by simp only [stats1000, List.length_replicate]; omega, ?_,
    by rw [hmain], by rw [hmain]⟩
  intro c hc
  simp only [stats1000, List.reverse_replicate, List.take_replicate] at hc
  exact List.eq_of_mem_replicate hc

end FurinaOCR
